import Mathlib

/-!
Verification development for the eos-backend generic workflow/approval
engine and its audit/budget-change logging companion.

The definitions below are a shallow embedding of the Python source:

- apps/workflows/services.py   (get_or_create_workflow_instance,
  can_transition, execute_transition, update_entity_status,
  request_approval, cancel_approval_request)
- apps/workflows/signals.py    (on_workflow_state_change,
  on_approval_request_created, on_approval_response)
- eos-backend/apps/workflows/views.py (ApprovalRequestViewSet.respond)
- eos-backend/apps/workflows/models.py (data model, approval_count,
  is_fully_approved)
- eos-backend/apps/audit/services.py and models.py (log_audit_event,
  log_state_change, BudgetChangeLog value conversion)

Database tables are lists of rows kept newest-first (matching the models'
Meta ordering by descending creation time); Django's .filter(...).first()
and .get(...) become List.find? on those lists.  ORM foreign keys are row
ids (Nat); Django compares model instances by primary key, so state
comparisons compare the id field.  Exceptions raised by the services
 (WorkflowError with a fixed message template per raise site) are embedded
as an error sum type WfError, one constructor per raise site / per error
response of the respond view, each documented with the exact source
message.  A function wrapped in transaction.atomic either returns the
fully updated database or an error together with the original database
untouched (rollback).
-/

namespace Eos

/-- Row of workflows_workflowdefinition (eos-backend/apps/workflows/models.py,
class WorkflowDefinition): tenant scoping, entity type tag, active and
default flags. -/
structure WorkflowDefinition where
  id : Nat
  tenant : Nat
  name : String
  code : String
  entity_type : String
  is_active : Bool
  is_default : Bool
deriving DecidableEq

/-- Row of workflows_workflowstate (class WorkflowState): code unique per
workflow, state_type is one of "initial" / "intermediate" / "final". -/
structure WorkflowState where
  id : Nat
  workflow : Nat
  name : String
  code : String
  state_type : String
  is_editable : Bool
  requires_approval : Bool
deriving DecidableEq

/-- Row of workflows_workflowtransition (class WorkflowTransition).  The
from_state/to_state foreign keys are embedded as full WorkflowState rows
(they are read-only catalog data); allowed_groups is the set of group ids
of the M2M table. -/
structure WorkflowTransition where
  id : Nat
  workflow : Nat
  name : String
  code : String
  from_state : WorkflowState
  to_state : WorkflowState
  allowed_groups : List Nat
  requires_comment : Bool
  requires_approval : Bool
  auto_execute : Bool
deriving DecidableEq

/-- The actor abstraction: Django auth user with superuser flag and group
membership ids (user.groups / user.is_superuser). -/
structure User where
  id : Nat
  full_name : String
  is_superuser : Bool
  groups : List Nat
deriving DecidableEq

/-- An owning entity (campaign, media plan, ...) as the workflow engine
sees it: (entity_type, id) identity, the tenant it belongs to, and the
status attribute.  hasStatus models Python hasattr(entity, 'status'):
update_entity_status silently no-ops when it is false. -/
structure Entity where
  id : Nat
  tenant : Nat
  entity_type : String
  hasStatus : Bool
  status : String
deriving DecidableEq

/-- Row of workflows_workflowinstance (class WorkflowInstance).  The
current_state foreign key is embedded as a full WorkflowState row; the
generic relation content_type/object_id is (entity_type, object_id). -/
structure WorkflowInstance where
  id : Nat
  workflow : Nat
  current_state : WorkflowState
  entity_type : String
  object_id : Nat
  completed_at : Option Nat
  is_active : Bool
deriving DecidableEq

/-- Row of workflows_workflowhistory (class WorkflowHistory).  The source
field named instance (the Lean keyword) is called wf_instance here. -/
structure WorkflowHistory where
  id : Nat
  wf_instance : Nat
  transition : Option Nat
  from_state : Nat
  to_state : Nat
  performed_by : Option Nat
  comment : String
deriving DecidableEq

/-- Row of workflows_approvalrequest (class ApprovalRequest); status is one
of "pending" / "approved" / "rejected" / "cancelled"; required_approvers /
required_groups are the M2M id sets. -/
structure ApprovalRequest where
  id : Nat
  workflow_instance : Nat
  transition : Nat
  status : String
  requested_by : Option Nat
  required_approvers : List Nat
  required_groups : List Nat
  min_approvals : Nat
  responded_by : Option Nat
  responded_at : Option Nat
  response_comment : String
  due_date : Option Nat
deriving DecidableEq

/-- Row of workflows_approvalresponse (class ApprovalResponse). -/
structure ApprovalResponse where
  id : Nat
  approval_request : Nat
  user : Nat
  is_approved : Bool
  comment : String
deriving DecidableEq

/-- Row of workflows_workflownotification (class WorkflowNotification). -/
structure WorkflowNotification where
  id : Nat
  user : Nat
  notification_type : String
  workflow_instance : Option Nat
  approval_request : Option Nat
  title : String
  message : String
  is_read : Bool
deriving DecidableEq

/-- Row of audit_auditlog (eos-backend/apps/audit/models.py, class
AuditLog). -/
structure AuditLogEntry where
  id : Nat
  entity_type : String
  entity_id : Nat
  action : String
  description : String
  old_state : Option String
  new_state : Option String
  created_by : Option Nat
deriving DecidableEq

/-- Row of audit_budgetchangelog (class BudgetChangeLog): monetary values
as integer micros. -/
structure BudgetChangeLogEntry where
  id : Nat
  entity_type : String
  entity_id : Nat
  field_name : String
  old_value_micros : Option Int
  new_value_micros : Int
  reason : Option String
  is_manual_override : Bool
  changed_by : Option Nat
deriving DecidableEq

/-- The read-only workflow catalog: definitions, states and transitions.
Lists are kept in the models' Meta ordering, so that a Django
.filter(...).first() is List.find? on the list. -/
structure Catalog where
  definitions : List WorkflowDefinition
  states : List WorkflowState
  transitions : List WorkflowTransition
deriving DecidableEq

/-- The mutable database state seen by the workflow subsystem.  Tables
whose Meta ordering is descending creation time (history, approval
requests, responses, notifications, audit log) are newest-first lists and
new rows are prepended.  nextId is the id sequence shared by all tables;
clock stands for timezone.now(). -/
structure DB where
  instances : List WorkflowInstance
  history : List WorkflowHistory
  approvalRequests : List ApprovalRequest
  responses : List ApprovalResponse
  notifications : List WorkflowNotification
  auditLog : List AuditLogEntry
  budgetLog : List BudgetChangeLogEntry
  entities : List Entity
  users : List User
  clock : Nat
  nextId : Nat
deriving DecidableEq

/-- Reasons can_transition (apps/workflows/services.py lines 98-120) can
refuse a transition; each constructor stands for one reason string of the
source: invalidTransition is 'Transition not available from current
state', unauthorized is 'User does not have permission for this
transition', approvalPending is 'Approval is pending for this
transition'. -/
inductive TransitionDenial where
  | invalidTransition
  | unauthorized
  | approvalPending
deriving DecidableEq

/-- Error sum for every WorkflowError raise site and every error response
of the approval views, one constructor per distinct source message
template:
- noDefaultWorkflow et: 'No default workflow found for entity type: et'
  (services.py line 52)
- noInitialState name: 'No initial state defined for workflow: name'
  (services.py line 59)
- cannotTransition d: WorkflowError(reason) in execute_transition
  (services.py line 143)
- notRequireApproval: 'This transition does not require approval'
  (services.py line 205)
- onlyPendingCancellable: 'Only pending approval requests can be
  cancelled' (services.py line 237)
- requestNotFound: 404 of ApprovalRequestViewSet.get_object
- requestNotPending: 'This approval request is no longer pending'
  (views.py line 241)
- notAuthorizedToRespond: 'You are not authorized to respond to this
  request' (views.py line 260)
- alreadyResponded: 'You have already responded to this request'
  (views.py line 269) -/
inductive WfError where
  | noDefaultWorkflow (entityType : String)
  | noInitialState (workflowName : String)
  | cannotTransition (d : TransitionDenial)
  | notRequireApproval
  | onlyPendingCancellable
  | requestNotFound
  | requestNotPending
  | notAuthorizedToRespond
  | alreadyResponded
deriving DecidableEq

/-- Write back a modified instance row by primary key (Django
workflow_instance.save()). -/
def updateInstance (db : DB) (i : WorkflowInstance) : DB :=
  { db with instances := db.instances.map (fun j => if j.id = i.id then i else j) }

/-- Write back a modified approval request row by primary key
(approval_request.save()). -/
def updateRequest (db : DB) (r : ApprovalRequest) : DB :=
  { db with approvalRequests :=
      db.approvalRequests.map (fun j => if j.id = r.id then r else j) }

/-- Write back a modified entity row by primary key (entity.save()). -/
def updateEntity (db : DB) (e : Entity) : DB :=
  { db with entities := db.entities.map (fun j => if j.id = e.id then e else j) }

/-- WorkflowNotification.objects.create: appends one notification row. -/
def createNotification (db : DB) (userId : Nat) (ntype : String)
    (wfInstance : Option Nat) (request : Option Nat)
    (title message : String) : DB :=
  let n : WorkflowNotification :=
    { id := db.nextId, user := userId, notification_type := ntype,
      workflow_instance := wfInstance, approval_request := request,
      title := title, message := message, is_read := false }
  { db with notifications := n :: db.notifications, nextId := db.nextId + 1 }

/-- ApprovalRequest.approval_count (models.py lines 361-363): number of
responses to this request with is_approved=True. -/
def approval_count (db : DB) (requestId : Nat) : Nat :=
  (db.responses.filter (fun r => r.approval_request = requestId ∧ r.is_approved)).length

/-- ApprovalRequest.is_fully_approved (models.py lines 369-371):
approval_count >= min_approvals. -/
def is_fully_approved (db : DB) (r : ApprovalRequest) : Prop :=
  approval_count db r.id ≥ r.min_approvals

instance (db : DB) (r : ApprovalRequest) : Decidable (is_fully_approved db r) := by
  unfold is_fully_approved; infer_instance

/-- WorkflowCatalog default-definition resolution as the source performs it
inline in get_or_create_workflow_instance (services.py lines 45-49):
WorkflowDefinition.objects.filter(entity_type=..., is_active=True,
is_default=True).first().  Note the filter does NOT mention the tenant. -/
def get_default_definition (c : Catalog) (entityType : String) :
    Option WorkflowDefinition :=
  c.definitions.find?
    (fun d => d.entity_type = entityType ∧ d.is_active ∧ d.is_default)

/-- The spec's version of default-definition resolution, written from the
spec's words for comparison: scoped to both the tenant and the entity
type ('fails ... if no active, default-flagged definition exists for that
(tenant, entity_type)'). -/
def get_default_definition_spec (c : Catalog) (tenant : Nat)
    (entityType : String) : Option WorkflowDefinition :=
  c.definitions.find?
    (fun d => d.tenant = tenant ∧ d.entity_type = entityType ∧
      d.is_active ∧ d.is_default)

/-- Initial-state resolution as performed inline in
get_or_create_workflow_instance (services.py lines 56-61):
workflow_definition.states.filter(state_type='initial').first(), raising
WorkflowError('No initial state defined for workflow: ...') when None. -/
def get_initial_state (c : Catalog) (wd : WorkflowDefinition) :
    Except WfError WorkflowState :=
  match c.states.find? (fun s => s.workflow = wd.id ∧ s.state_type = "initial") with
  | some s => .ok s
  | none => .error (.noInitialState wd.name)

/-- get_or_create_workflow_instance (services.py lines 19-69): returns the
active instance for the entity if one exists; otherwise resolves the
workflow definition (the given one, else the default for the entity type),
resolves the initial state, and creates a new active instance. -/
def get_or_create_workflow_instance (c : Catalog) (db : DB) (e : Entity)
    (workflow_definition : Option WorkflowDefinition) :
    Except WfError (DB × Nat) :=
  match db.instances.find?
      (fun i => i.entity_type = e.entity_type ∧ i.object_id = e.id ∧ i.is_active) with
  | some i => .ok (db, i.id)
  | none =>
    let wdE : Except WfError WorkflowDefinition :=
      match workflow_definition with
      | some wd => .ok wd
      | none =>
        match get_default_definition c e.entity_type with
        | some wd => .ok wd
        | none => .error (.noDefaultWorkflow e.entity_type)
    match wdE with
    | .error err => .error err
    | .ok wd =>
      match get_initial_state c wd with
      | .error err => .error err
      | .ok s0 =>
        let inst : WorkflowInstance :=
          { id := db.nextId, workflow := wd.id, current_state := s0,
            entity_type := e.entity_type, object_id := e.id,
            completed_at := none, is_active := true }
        let db2 : DB :=
          { db with instances := inst :: db.instances, nextId := db.nextId + 1 }
        .ok (db2, inst.id)

/-- can_transition (services.py lines 86-120).  Returns none when the
transition may run, otherwise the denial for the source's (False, reason)
tuple.  Checks in source order: from_state equals current state (compared
by primary key, as Django compares model instances); then, for a
non-superuser actor, that the allowed-group set is empty or intersects the
actor's groups; then, for an approval-requiring transition, that no
pending ApprovalRequest exists for (instance, transition). -/
def can_transition (db : DB) (inst : WorkflowInstance)
    (t : WorkflowTransition) (user : Option User) : Option TransitionDenial :=
  if t.from_state.id ≠ inst.current_state.id then
    some .invalidTransition
  else if (match user with
           | some u =>
             !u.is_superuser && !t.allowed_groups.isEmpty &&
               !t.allowed_groups.any (fun g => u.groups.contains g)
           | none => false) then
    some .unauthorized
  else if t.requires_approval ∧
      db.approvalRequests.any
        (fun r => r.workflow_instance = inst.id ∧ r.transition = t.id ∧
          r.status = "pending") then
    some .approvalPending
  else
    none

/-- Signal on_workflow_state_change (signals.py lines 14-30): post_save on
WorkflowHistory creation; creates one state_changed notification to the
performer when performed_by is set. -/
def on_workflow_state_change (db : DB) (hist : WorkflowHistory)
    (inst : WorkflowInstance) (t : WorkflowTransition) : DB :=
  match hist.performed_by with
  | some uid =>
    createNotification db uid "state_changed" (some inst.id) none
      ("State changed to " ++ t.to_state.name)
      ("The status has been changed from " ++ t.from_state.name ++ " to "
        ++ t.to_state.name ++ ".")
  | none => db

/-- update_entity_status (services.py lines 172-183): pushes the new
state's code onto the owning entity's status attribute; silently no-ops
when the entity cannot be resolved or lacks a status attribute. -/
def update_entity_status (db : DB) (inst : WorkflowInstance)
    (new_state : WorkflowState) : DB :=
  match db.entities.find?
      (fun e => e.entity_type = inst.entity_type ∧ e.id = inst.object_id) with
  | some e => if e.hasStatus then updateEntity db { e with status := new_state.code } else db
  | none => db

/-- execute_transition (services.py lines 123-169, wrapped in
transaction.atomic) including the post_save signal fired by the
WorkflowHistory creation: re-checks can_transition (raising
WorkflowError(reason) when it refuses), appends a WorkflowHistory row,
sets current_state to transition.to_state, and when the new state's
state_type is 'final' additionally sets completed_at and is_active=False;
finally pushes the new state's code onto the entity's status attribute.
No AuditLog entry is written anywhere in this code path.  Returns the new
database and the history row id; on error the database is unchanged
(atomic rollback). -/
def execute_transition (db : DB) (inst : WorkflowInstance)
    (t : WorkflowTransition) (user : Option User) (comment : String) :
    Except WfError (DB × Nat) :=
  match can_transition db inst t user with
  | some d => .error (.cannotTransition d)
  | none =>
    let hid := db.nextId
    let hist : WorkflowHistory :=
      { id := hid, wf_instance := inst.id, transition := some t.id,
        from_state := inst.current_state.id, to_state := t.to_state.id,
        performed_by := user.map (fun u => u.id), comment := comment }
    let db1 := { db with history := hist :: db.history, nextId := hid + 1 }
    let db2 := on_workflow_state_change db1 hist inst t
    let inst1 := { inst with current_state := t.to_state }
    let db3 := updateInstance db2 inst1
    let db4 :=
      if t.to_state.state_type = "final" then
        updateInstance db3
          { inst1 with completed_at := some db3.clock, is_active := false }
      else db3
    let db5 := update_entity_status db4 inst t.to_state
    .ok (db5, hid)

/-- Caller-side view of execute_transition under transaction.atomic: on
error the original database is kept (full rollback), on success the new
database is installed. -/
def runTransition (db : DB) (inst : WorkflowInstance)
    (t : WorkflowTransition) (user : Option User) (comment : String) :
    DB × Except WfError Nat :=
  match execute_transition db inst t user comment with
  | .ok (db2, h) => (db2, .ok h)
  | .error e => (db, .error e)

/-- approval_request.required_approvers.set(approvers) (services.py line
227): replaces the M2M approver set of the stored row. -/
def setRequestApprovers (db : DB) (requestId : Nat) (approvers : List Nat) : DB :=
  let rs := db.approvalRequests.map
    (fun r => if r.id = requestId then { r with required_approvers := approvers } else r)
  { db with approvalRequests := rs }

/-- approval_request.required_groups.set(groups) (services.py line 229). -/
def setRequestGroups (db : DB) (requestId : Nat) (groups : List Nat) : DB :=
  let rs := db.approvalRequests.map
    (fun r => if r.id = requestId then { r with required_groups := groups } else r)
  { db with approvalRequests := rs }

/-- Signal on_approval_request_created (signals.py lines 33-48): post_save
fired synchronously inside ApprovalRequest.objects.create; creates one
approval_required notification per user in the request's
required_approvers M2M set as it stands at save time.  entityType is
instance.workflow_instance.workflow.entity_type of the message text. -/
def on_approval_request_created (db : DB) (req : ApprovalRequest)
    (entityType : String) : DB :=
  req.required_approvers.foldl
    (fun d uid =>
      createNotification d uid "approval_required" (some req.workflow_instance)
        (some req.id) "Approval Required"
        ("Your approval is required for a " ++ entityType ++ "."))
    db

/-- request_approval (services.py lines 186-231, transaction.atomic): fails
when the transition does not require approval; returns an existing pending
request for (instance, transition) unchanged; otherwise creates a new
pending request (firing the post_save signal at creation time, while the
required_approvers M2M set is still empty) and only afterwards sets the
approver and group M2M sets, mirroring the source's create-then-set order.
Returns the database and the request id. -/
def request_approval (c : Catalog) (db : DB) (inst : WorkflowInstance)
    (t : WorkflowTransition) (user : User) (approvers : List Nat)
    (groups : List Nat) (min_approvals : Nat) (due_date : Option Nat) :
    Except WfError (DB × Nat) :=
  if ¬t.requires_approval then .error .notRequireApproval
  else
    match db.approvalRequests.find?
        (fun r => r.workflow_instance = inst.id ∧ r.transition = t.id ∧
          r.status = "pending") with
    | some existing => .ok (db, existing.id)
    | none =>
      let req : ApprovalRequest :=
        { id := db.nextId, workflow_instance := inst.id, transition := t.id,
          status := "pending", requested_by := some user.id,
          required_approvers := [], required_groups := [],
          min_approvals := min_approvals, responded_by := none,
          responded_at := none, response_comment := "", due_date := due_date }
      let db1 : DB :=
        { db with
          approvalRequests := req :: db.approvalRequests,
          nextId := db.nextId + 1 }
      let entityType :=
        ((c.definitions.find? (fun d => d.id = inst.workflow)).map
          (fun d => d.entity_type)).getD ""
      let db2 := on_approval_request_created db1 req entityType
      let db3 := if approvers ≠ [] then setRequestApprovers db2 req.id approvers else db2
      let db4 := if groups ≠ [] then setRequestGroups db3 req.id groups else db3
      .ok (db4, req.id)

/-- cancel_approval_request (services.py lines 234-244): only pending
requests can be cancelled; sets status to cancelled and stamps the
responder. -/
def cancel_approval_request (db : DB) (requestId : Nat) (user : User) :
    Except WfError DB :=
  match db.approvalRequests.find? (fun r => r.id = requestId) with
  | none => .error .requestNotFound
  | some req =>
    if req.status ≠ "pending" then .error .onlyPendingCancellable
    else .ok (updateRequest db
      { req with
        status := "cancelled", responded_by := some user.id,
        responded_at := some db.clock })

/-- Signal on_approval_response (signals.py lines 51-91): post_save fired
synchronously inside ApprovalResponse.objects.create.  When the request is
fully approved and still pending it flips the request to approved, stamps
the responder, and calls execute_transition with the synthesized
Auto-approved comment; a WorkflowError raised there propagates (the
requester notification below is then skipped).  Afterwards it notifies the
requester with approval_received or rejection_received. -/
def on_approval_response (c : Catalog) (db : DB) (resp : ApprovalResponse) :
    Except WfError DB :=
  match db.approvalRequests.find? (fun r => r.id = resp.approval_request) with
  | none => .ok db
  | some req =>
    let actE : Except WfError DB :=
      if is_fully_approved db req ∧ req.status = "pending" then
        let req1 : ApprovalRequest :=
          { req with
            status := "approved", responded_by := some resp.user,
            responded_at := some db.clock }
        let dbA := updateRequest db req1
        match dbA.instances.find? (fun i => i.id = req.workflow_instance),
              c.transitions.find? (fun t => t.id = req.transition),
              dbA.users.find? (fun u => u.id = resp.user) with
        | some inst, some t, some u =>
          (execute_transition dbA inst t (some u)
            ("Auto-approved after " ++ toString (approval_count dbA req.id)
              ++ " approvals")).map (fun p => p.1)
        | _, _, _ => .ok dbA
      else .ok db
    match actE with
    | .error e => .error e
    | .ok dbB =>
      match req.requested_by with
      | some ruid =>
        let act := if resp.is_approved then "approved" else "rejected"
        let ntype := if resp.is_approved then "approval_received" else "rejection_received"
        let uname :=
          ((db.users.find? (fun u => u.id = resp.user)).map
            (fun u => u.full_name)).getD ""
        .ok (createNotification dbB ruid ntype (some req.workflow_instance)
          (some req.id) ("Approval " ++ act)
          (uname ++ " has " ++ act ++ " your request."))
      | none => .ok dbB

/-- ApprovalRequestViewSet.respond (eos-backend/apps/workflows/views.py
lines 234-289), run sequentially: rejects a non-pending request, an
unauthorized user (not a required approver, not in a required group, not a
superuser), and a duplicate response; then creates the ApprovalResponse
(which synchronously fires on_approval_response), and finally, for a
rejecting response, flips the request row loaded at entry to rejected.
The view runs without an enclosing transaction; on a propagated
WorkflowError the partially written state is dropped here, which no
settled claim depends on. -/
def respond (c : Catalog) (db : DB) (requestId : Nat) (user : User)
    (is_approved : Bool) (comment : String) : Except WfError DB :=
  match db.approvalRequests.find? (fun r => r.id = requestId) with
  | none => .error .requestNotFound
  | some req0 =>
    if req0.status ≠ "pending" then .error .requestNotPending
    else if ¬(req0.required_approvers.contains user.id ∨
              req0.required_groups.any (fun g => user.groups.contains g) ∨
              user.is_superuser) then .error .notAuthorizedToRespond
    else if db.responses.any
        (fun r => r.approval_request = requestId ∧ r.user = user.id) then
      .error .alreadyResponded
    else
      let resp : ApprovalResponse :=
        { id := db.nextId, approval_request := requestId, user := user.id,
          is_approved := is_approved, comment := comment }
      let db1 : DB :=
        { db with responses := resp :: db.responses, nextId := db.nextId + 1 }
      match on_approval_response c db1 resp with
      | .error e => .error e
      | .ok db2 =>
        if !is_approved then
          .ok (updateRequest db2
            { req0 with
              status := "rejected", responded_by := some user.id,
              responded_at := some db2.clock, response_comment := resp.comment })
        else .ok db2

/-- log_audit_event (eos-backend/apps/audit/services.py lines 16-57): pure
append of one AuditLog row. -/
def log_audit_event (db : DB) (entity_type : String) (entity_id : Nat)
    (action description : String) (user : Option Nat)
    (old_state new_state : Option String) : DB × Nat :=
  let e : AuditLogEntry :=
    { id := db.nextId, entity_type := entity_type, entity_id := entity_id,
      action := action, description := description, old_state := old_state,
      new_state := new_state, created_by := user }
  ({ db with auditLog := e :: db.auditLog, nextId := db.nextId + 1 }, e.id)

/-- log_state_change (audit/services.py lines 60-97): appends one AuditLog
row with action state_changed and the old/new state strings.  Nothing in
the workflow transition code path calls it. -/
def log_state_change (db : DB) (entity_type : String) (entity_id : Nat)
    (old_state new_state : String) (user : Option Nat) : DB × Nat :=
  log_audit_event db entity_type entity_id "state_changed"
    ("status: " ++ old_state ++ " -> " ++ new_state) user
    (some old_state) (some new_state)

/-- The exact decimal value of an integer micros amount, v / 1_000_000 as
a rational: what the spec demands the display conversion to equal. -/
def micros_to_decimal_exact (v : Int) : ℚ := (v : ℚ) / 1000000

/-- BudgetChangeLog.change_delta_micros (audit/models.py lines 297-301). -/
def change_delta_micros (b : BudgetChangeLogEntry) : Int :=
  match b.old_value_micros with
  | some o => b.new_value_micros - o
  | none => b.new_value_micros

/-- The values exactly representable in IEEE-754 binary64, the type of
Python's float returned by the true division new_value_micros / 1_000_000
in BudgetChangeLog.new_value (audit/models.py lines 291-294): rationals of
the form m * 2^e with a 53-bit significand.  (Exponent range is left
unbounded, which only enlarges the set.) -/
def representableBinary64 (q : ℚ) : Prop :=
  ∃ m e : ℤ, |m| < 2 ^ 53 ∧ q = (m : ℚ) * (2 : ℚ) ^ e

/-!
Interleaving model of two concurrent respond calls.

The respond view and the on_approval_response signal run without any
enclosing lock, select_for_update, or compare-and-swap: every database
read and write block below is a separate storage operation, and two
concurrent request handlers may interleave them arbitrarily.  A thread
submitting an approving response is decomposed into the consecutive
read/write blocks of the source; pc names the block to run next:

- pc 0: the view's entry checks, all reads (views.py lines 237-271)
- pc 1: ApprovalResponse.objects.create, one insert (views.py line 274)
- pc 2: the signal's completion check, reads of approval_count and status
  (signals.py line 60)
- pc 3: flip the request to approved and save (signals.py lines 61-64)
- pc 4: execute_transition entry: fetch the instance and evaluate
  can_transition, all reads (signals.py line 67, services.py line 141)
- pc 5: execute_transition write block: history insert, state update,
  final-state handling, entity status push (services.py lines 146-167);
  when the re-check at pc 4 failed, the WorkflowError aborts the thread
- pc 6: requester notification (signals.py lines 79-90); an approving
  response skips the view's rejected branch
- pc 7: finished (failed records an error/exception exit).
-/
structure RespondThread where
  user : User
  requestId : Nat
  t : WorkflowTransition
  pc : Nat
  go : Bool
  canDo : Bool
  instSnap : Option WorkflowInstance
  failed : Bool
deriving DecidableEq

/-- One atomic storage step of an in-flight approving respond call; see
the block list above. -/
def threadStep (db : DB) (th : RespondThread) : DB × RespondThread :=
  if th.pc = 0 then
    match db.approvalRequests.find? (fun r => r.id = th.requestId) with
    | none => (db, { th with pc := 7, failed := true })
    | some req =>
      if req.status ≠ "pending" then (db, { th with pc := 7, failed := true })
      else if ¬(req.required_approvers.contains th.user.id ∨
                req.required_groups.any (fun g => th.user.groups.contains g) ∨
                th.user.is_superuser) then (db, { th with pc := 7, failed := true })
      else if db.responses.any
          (fun r => r.approval_request = th.requestId ∧ r.user = th.user.id) then
        (db, { th with pc := 7, failed := true })
      else (db, { th with pc := 1 })
  else if th.pc = 1 then
    let resp : ApprovalResponse :=
      { id := db.nextId, approval_request := th.requestId,
        user := th.user.id, is_approved := true, comment := "" }
    ({ db with responses := resp :: db.responses, nextId := db.nextId + 1 },
     { th with pc := 2 })
  else if th.pc = 2 then
    match db.approvalRequests.find? (fun r => r.id = th.requestId) with
    | none => (db, { th with pc := 7, failed := true })
    | some req =>
      (db, { th with
             go := decide (is_fully_approved db req ∧ req.status = "pending"),
             pc := 3 })
  else if th.pc = 3 then
    if th.go then
      match db.approvalRequests.find? (fun r => r.id = th.requestId) with
      | none => (db, { th with pc := 7, failed := true })
      | some req =>
        (updateRequest db
          { req with
            status := "approved", responded_by := some th.user.id,
            responded_at := some db.clock },
         { th with pc := 4 })
    else (db, { th with pc := 6 })
  else if th.pc = 4 then
    match db.approvalRequests.find? (fun r => r.id = th.requestId) with
    | none => (db, { th with pc := 7, failed := true })
    | some req =>
      match db.instances.find? (fun i => i.id = req.workflow_instance) with
      | none => (db, { th with pc := 7, failed := true })
      | some inst =>
        (db, { th with
               instSnap := some inst,
               canDo := (can_transition db inst th.t (some th.user)).isNone,
               pc := 5 })
  else if th.pc = 5 then
    if th.canDo then
      match th.instSnap with
      | some inst =>
        let hid := db.nextId
        let hist : WorkflowHistory :=
          { id := hid, wf_instance := inst.id, transition := some th.t.id,
            from_state := inst.current_state.id, to_state := th.t.to_state.id,
            performed_by := some th.user.id,
            comment := "Auto-approved after "
              ++ toString (approval_count db th.requestId) ++ " approvals" }
        let db1 : DB := { db with history := hist :: db.history, nextId := hid + 1 }
        let db2 := on_workflow_state_change db1 hist inst th.t
        let inst1 := { inst with current_state := th.t.to_state }
        let db3 := updateInstance db2 inst1
        let db4 :=
          if th.t.to_state.state_type = "final" then
            updateInstance db3
              { inst1 with completed_at := some db3.clock, is_active := false }
          else db3
        (update_entity_status db4 inst th.t.to_state, { th with pc := 6 })
      | none => (db, { th with pc := 7, failed := true })
    else (db, { th with pc := 7, failed := true })
  else if th.pc = 6 then
    match db.approvalRequests.find? (fun r => r.id = th.requestId) with
    | none => (db, { th with pc := 7 })
    | some req =>
      match req.requested_by with
      | some ruid =>
        (createNotification db ruid "approval_received"
          (some req.workflow_instance) (some req.id) "Approval approved"
          (th.user.full_name ++ " has approved your request."),
         { th with pc := 7 })
      | none => (db, { th with pc := 7 })
  else (db, th)

/-- Two concurrent respond handlers over one shared database. -/
structure Sys where
  db : DB
  th1 : RespondThread
  th2 : RespondThread
deriving DecidableEq

/-- Run one storage step of the chosen thread (true picks the first). -/
def sysStep (s : Sys) (which : Bool) : Sys :=
  if which then
    let p := threadStep s.db s.th1
    { s with db := p.1, th1 := p.2 }
  else
    let p := threadStep s.db s.th2
    { s with db := p.1, th2 := p.2 }

/-- Run a schedule, an arbitrary interleaving of the two threads' steps. -/
def runSchedule (s : Sys) : List Bool → Sys
  | [] => s
  | b :: rest => runSchedule (sysStep s b) rest

/-- Status of an approval request row, by id. -/
def requestStatus (db : DB) (requestId : Nat) : Option String :=
  (db.approvalRequests.find? (fun r => r.id = requestId)).map (fun r => r.status)

/-- Approver M2M set of an approval request row, by id. -/
def requestApprovers (db : DB) (requestId : Nat) : Option (List Nat) :=
  (db.approvalRequests.find? (fun r => r.id = requestId)).map
    (fun r => r.required_approvers)

/-- Current state id of an instance row, by id. -/
def instanceState (db : DB) (instId : Nat) : Option Nat :=
  (db.instances.find? (fun i => i.id = instId)).map (fun i => i.current_state.id)

/-- Status attribute of an entity row, by id. -/
def entityStatus (db : DB) (entityId : Nat) : Option String :=
  (db.entities.find? (fun e => e.id = entityId)).map (fun e => e.status)

/-- Number of states of a definition tagged initial. -/
def numInitialStates (c : Catalog) (wd : WorkflowDefinition) : Nat :=
  (c.states.filter
    (fun s => decide (s.workflow = wd.id ∧ s.state_type = "initial"))).length

/-!
Concrete fixtures: the CampaignApproval demo workflow of the spec's happy
path (DRAFT initial, PENDING intermediate with approval, LIVE final), plus
an ARCHIVED final state reached from LIVE so that the catalog contains an
outgoing transition of a final state.
-/

def stDraft : WorkflowState :=
  { id := 1, workflow := 10, name := "Draft", code := "DRAFT",
    state_type := "initial", is_editable := true, requires_approval := false }

def stPending : WorkflowState :=
  { id := 2, workflow := 10, name := "Pending", code := "PENDING",
    state_type := "intermediate", is_editable := false, requires_approval := true }

def stLive : WorkflowState :=
  { id := 3, workflow := 10, name := "Live", code := "LIVE",
    state_type := "final", is_editable := false, requires_approval := false }

def stArchived : WorkflowState :=
  { id := 4, workflow := 10, name := "Archived", code := "ARCHIVED",
    state_type := "final", is_editable := false, requires_approval := false }

def trSubmit : WorkflowTransition :=
  { id := 21, workflow := 10, name := "Submit", code := "SUBMIT",
    from_state := stDraft, to_state := stPending, allowed_groups := [],
    requires_comment := false, requires_approval := false, auto_execute := false }

def trApprove : WorkflowTransition :=
  { id := 22, workflow := 10, name := "Approve", code := "APPROVE",
    from_state := stPending, to_state := stLive, allowed_groups := [],
    requires_comment := false, requires_approval := true, auto_execute := false }

def trArchive : WorkflowTransition :=
  { id := 23, workflow := 10, name := "Archive", code := "ARCHIVE",
    from_state := stLive, to_state := stArchived, allowed_groups := [],
    requires_comment := false, requires_approval := false, auto_execute := false }

def wdCampaign : WorkflowDefinition :=
  { id := 10, tenant := 1, name := "CampaignApproval",
    code := "CAMPAIGN_APPROVAL", entity_type := "campaign",
    is_active := true, is_default := true }

def demoCatalog : Catalog :=
  { definitions := [wdCampaign],
    states := [stDraft, stPending, stLive, stArchived],
    transitions := [trSubmit, trApprove, trArchive] }

def uAlice : User := { id := 100, full_name := "Alice", is_superuser := false, groups := [] }

def uBob : User := { id := 101, full_name := "Bob", is_superuser := false, groups := [] }

def uCara : User := { id := 102, full_name := "Cara", is_superuser := false, groups := [] }

def uDana : User := { id := 103, full_name := "Dana", is_superuser := false, groups := [] }

def entCampaign : Entity :=
  { id := 500, tenant := 1, entity_type := "campaign", hasStatus := true,
    status := "DRAFT" }

/-- A database with the demo entity and users but no workflow rows yet. -/
def baseDB : DB :=
  { instances := [], history := [], approvalRequests := [], responses := [],
    notifications := [], auditLog := [], budgetLog := [],
    entities := [entCampaign], users := [uAlice, uBob, uCara, uDana],
    clock := 1000, nextId := 600 }

/-- Active instance of the demo campaign sitting in DRAFT. -/
def instDraft : WorkflowInstance :=
  { id := 300, workflow := 10, current_state := stDraft,
    entity_type := "campaign", object_id := 500, completed_at := none,
    is_active := true }

/-- Active instance of the demo campaign sitting in PENDING. -/
def instPending : WorkflowInstance :=
  { id := 302, workflow := 10, current_state := stPending,
    entity_type := "campaign", object_id := 500, completed_at := none,
    is_active := true }

/-- Completed (inactive) instance of the demo campaign resting in the
final state LIVE. -/
def instLiveDone : WorkflowInstance :=
  { id := 301, workflow := 10, current_state := stLive,
    entity_type := "campaign", object_id := 500, completed_at := some 900,
    is_active := false }

def dbDraft : DB := { baseDB with instances := [instDraft] }

def dbLiveDone : DB := { baseDB with instances := [instLiveDone] }

/-- Pending approval request on instPending for trApprove requiring two
approvals from Bob, Cara or Dana, requested by Alice. -/
def reqTwo : ApprovalRequest :=
  { id := 400, workflow_instance := 302, transition := 22,
    status := "pending", requested_by := some 100,
    required_approvers := [101, 102, 103], required_groups := [],
    min_approvals := 2, responded_by := none, responded_at := none,
    response_comment := "", due_date := none }

def dbTwoApprovals : DB :=
  { baseDB with instances := [instPending], approvalRequests := [reqTwo] }

/-- Same request with min_approvals = 0 (PositiveSmallIntegerField admits
zero). -/
def reqZero : ApprovalRequest := { reqTwo with id := 402, min_approvals := 0 }

def dbZeroApprovals : DB :=
  { baseDB with instances := [instPending], approvalRequests := [reqZero] }

/-- Pending approval request with min_approvals = 1 and two approvers, the
concurrent-threshold scenario. -/
def reqOne : ApprovalRequest := { reqTwo with id := 401, min_approvals := 1 }

def dbOneApproval : DB :=
  { baseDB with instances := [instPending], approvalRequests := [reqOne] }

def thBob : RespondThread :=
  { user := uBob, requestId := 401, t := trApprove, pc := 0, go := false,
    canDo := false, instSnap := none, failed := false }

def thCara : RespondThread := { thBob with user := uCara }

def sysRace : Sys := { db := dbOneApproval, th1 := thBob, th2 := thCara }

/-- The racing interleaving: both threads insert their response and pass
the signal's completion check before either flips the request, then both
pass the execute_transition re-check before either writes the new state. -/
def raceSchedule : List Bool :=
  [true, true, false, false, true, false, true, false, true, false,
   true, false, true, false]

/-- Catalog whose only definition has two initial-tagged states. -/
def wdTwoInit : WorkflowDefinition :=
  { id := 11, tenant := 1, name := "TwoInitial", code := "TWO_INITIAL",
    entity_type := "media_plan", is_active := true, is_default := true }

def stInitA : WorkflowState :=
  { id := 5, workflow := 11, name := "StartA", code := "START_A",
    state_type := "initial", is_editable := true, requires_approval := false }

def stInitB : WorkflowState :=
  { id := 6, workflow := 11, name := "StartB", code := "START_B",
    state_type := "initial", is_editable := true, requires_approval := false }

def catalogTwoInit : Catalog :=
  { definitions := [wdTwoInit], states := [stInitA, stInitB], transitions := [] }

/-- Catalog whose only default campaign definition belongs to tenant 2,
while entCampaign belongs to tenant 1. -/
def wdOtherTenant : WorkflowDefinition :=
  { id := 12, tenant := 2, name := "OtherTenantWf", code := "OTHER",
    entity_type := "campaign", is_active := true, is_default := true }

def stOtherInit : WorkflowState :=
  { id := 7, workflow := 12, name := "Start", code := "START",
    state_type := "initial", is_editable := true, requires_approval := false }

def catalogOtherTenant : Catalog :=
  { definitions := [wdOtherTenant], states := [stOtherInit], transitions := [] }

/-- True when an Except value is a success. -/
def exceptOk {ε α : Type} : Except ε α → Bool
  | .ok _ => true
  | .error _ => false

/-- Database after a service returning (DB, id): the new database on
success, the unchanged one on error (transaction rollback). -/
def dbAfter (db : DB) : Except WfError (DB × Nat) → DB
  | .ok p => p.1
  | .error _ => db

/-- Database after a respond call: the new database on success, the
unchanged one on error. -/
def dbAfterRespond (db : DB) : Except WfError DB → DB
  | .ok d => d
  | .error _ => db

/-- Result of executing the non-approval DRAFT to PENDING transition on
the demo instance. -/
def execSubmitResult : Except WfError (DB × Nat) :=
  execute_transition dbDraft instDraft trSubmit (some uAlice) "go"

def dbAfterSubmit : DB := dbAfter dbDraft execSubmitResult

/-- Result of executing the LIVE to ARCHIVED transition on the completed
(is_active = false) demo instance. -/
def execArchiveResult : Except WfError (DB × Nat) :=
  execute_transition dbLiveDone instLiveDone trArchive (some uAlice) "later"

def dbAfterArchive : DB := dbAfter dbLiveDone execArchiveResult

/-- Final system state of the concurrent-threshold race. -/
def raceFinal : Sys := runSchedule sysRace raceSchedule

/-- Bob rejects first on the min_approvals = 2 request. -/
def rejectFirstResult : Except WfError DB :=
  respond demoCatalog dbTwoApprovals 400 uBob false "changes requested"

def dbAfterReject : DB := dbAfterRespond dbTwoApprovals rejectFirstResult

/-- Bob rejects on the min_approvals = 0 request. -/
def rejectZeroResult : Except WfError DB :=
  respond demoCatalog dbZeroApprovals 402 uBob false "no"

def dbAfterRejectZero : DB := dbAfterRespond dbZeroApprovals rejectZeroResult

/-- Cara approves first on the min_approvals = 2 request. -/
def approveOnceResult : Except WfError DB :=
  respond demoCatalog dbTwoApprovals 400 uCara true ""

def dbAfterOneApprove : DB := dbAfterRespond dbTwoApprovals approveOnceResult

/-- Dana approves second on the min_approvals = 2 request. -/
def approveTwiceResult : Except WfError DB :=
  respond demoCatalog dbAfterOneApprove 400 uDana true ""

def dbAfterTwoApprovals : DB := dbAfterRespond dbAfterOneApprove approveTwiceResult

def dbPendingOnly : DB := { baseDB with instances := [instPending] }

/-- First request_approval call for (instPending, trApprove) with two
required approvers. -/
def requestApprovalResult : Except WfError (DB × Nat) :=
  request_approval demoCatalog dbPendingOnly instPending trApprove uAlice
    [101, 102] [] 2 none

def dbAfterRequest : DB := dbAfter dbPendingOnly requestApprovalResult

/-- The failing micros amount of the budget-change display conversion:
(2^53 + 1) * 10^6, whose exact decimal value 2^53 + 1 needs a 54-bit
significand. -/
def failingMicros : Int := (2 ^ 53 + 1) * 1000000

instance {ε α : Type} [DecidableEq ε] [DecidableEq α] :
    DecidableEq (Except ε α) := fun x y =>
  match x, y with
  | .ok a, .ok b =>
    if h : a = b then .isTrue (by rw [h])
    else .isFalse (by intro he; cases he; exact h rfl)
  | .ok _, .error _ => .isFalse (by intro he; cases he)
  | .error _, .ok _ => .isFalse (by intro he; cases he)
  | .error a, .error b =>
    if h : a = b then .isTrue (by rw [h])
    else .isFalse (by intro he; cases he; exact h rfl)

/-!
Helper lemmas shared by the claim theorems.
-/

/-- get_initial_state only ever fails with the NoInitialState error. -/
theorem get_initial_state_error (c : Catalog) (wd : WorkflowDefinition)
    (err : WfError) (h : get_initial_state c wd = .error err) :
    err = .noInitialState wd.name := by
  unfold get_initial_state at h
  cases hf : c.states.find?
      (fun s => s.workflow = wd.id ∧ s.state_type = "initial") with
  | none => rw [hf] at h; cases h; rfl
  | some s => rw [hf] at h; cases h

/-- Looking up a request id after an update-by-id pass writing a row r'
carrying that id returns r', provided a row with the id existed. -/
theorem find?_id_after_update (rs : List ApprovalRequest) (rid xid : Nat)
    (r' : ApprovalRequest) (hx : xid = rid) (hr : r'.id = rid)
    (req : ApprovalRequest)
    (h : rs.find? (fun r => r.id = rid) = some req) :
    (rs.map (fun j => if j.id = xid then r' else j)).find?
      (fun r => r.id = rid) = some r' := by
  induction rs with
  | nil => simp at h
  | cons a as ih =>
    simp only [List.map_cons]
    by_cases ha : a.id = rid
    · have hmap : (if a.id = xid then r' else a) = r' := by
        rw [hx]; exact if_pos ha
      rw [hmap]
      exact List.find?_cons_of_pos _ (by simp [hr])
    · have hmap : (if a.id = xid then r' else a) = a := by
        rw [hx]; exact if_neg ha
      have h' : as.find? (fun r => r.id = rid) = some req := by
        rw [List.find?_cons_of_neg _ (by simp [ha])] at h; exact h
      rw [hmap, List.find?_cons_of_neg _ (by simp [ha])]
      exact ih h'

/-- The stored status after an update-by-id pass writing a rejected row is
rejected. -/
theorem status_after_reject_update (rs : List ApprovalRequest)
    (rid xid : Nat) (r' : ApprovalRequest) (hx : xid = rid)
    (hr : r'.id = rid) (hs : r'.status = "rejected")
    (req : ApprovalRequest)
    (h : rs.find? (fun r => r.id = rid) = some req) :
    Option.map (fun r => r.status)
      ((rs.map (fun j => if j.id = xid then r' else j)).find?
        (fun r => r.id = rid)) = some "rejected" := by
  rw [find?_id_after_update rs rid xid r' hx hr req h]
  simp [hs]

/-- A freshly inserted non-approving response leaves approval_count
unchanged. -/
theorem approval_count_cons_not_approved (db : DB) (rid : Nat)
    (resp : ApprovalResponse) (h : resp.is_approved = false) (n : Nat) :
    approval_count
      { db with responses := resp :: db.responses, nextId := n } rid =
    approval_count db rid := by
  unfold approval_count
  simp [List.filter, h]

/-!
Claim theorems.
-/

/-- C1: for an instance, transition and actor for which can_transition
holds, a successful execute_transition appends exactly one WorkflowHistory
row with the right from/to states, updates current_state, handles the
final-state flags, and pushes the new state's code onto the entity's
status attribute — but it emits NO AuditLog entry at all: after the
successful DRAFT to PENDING transition the audit log is still empty,
against the claim's exactly-one state_changed AuditLog entry.  The
state_changed AuditLog writer log_state_change exists in the audit service
but is never called from the transition code path. -/
theorem C1_execute_transition_writes_no_audit_log :
    can_transition dbDraft instDraft trSubmit (some uAlice) = none ∧
    exceptOk execSubmitResult = true ∧
    dbAfterSubmit.history.length = dbDraft.history.length + 1 ∧
    (dbAfterSubmit.history.head?.map (fun h => (h.from_state, h.to_state))
      = some (stDraft.id, stPending.id)) ∧
    instanceState dbAfterSubmit 300 = some stPending.id ∧
    ((dbAfterSubmit.instances.find? (fun i => i.id = 300)).map
      (fun i => (i.is_active, i.completed_at)) = some (true, none)) ∧
    entityStatus dbAfterSubmit 500 = some "PENDING" ∧
    dbAfterSubmit.auditLog.length = 0 := by
  decide

/-- C2: two concurrent respond calls that each individually complete the
min_approvals = 1 threshold, interleaved so that both pass the signal's
completion check and both pass the execute_transition re-check before
either writes, execute the underlying transition twice: the run of
raceSchedule ends with two WorkflowHistory rows for the single approval
request, against the claim's exactly-once execution.  Neither thread
fails: both respond calls return normally. -/
theorem C2_concurrent_responses_double_execute :
    raceFinal.db.history.length = 2 ∧
    (raceFinal.db.history.map (fun h => (h.wf_instance, h.transition))
      = [(302, some 22), (302, some 22)]) ∧
    requestStatus raceFinal.db 401 = some "approved" ∧
    raceFinal.th1.failed = false ∧ raceFinal.th2.failed = false := by
  decide

/-- C3 counterexample: the claim says a rejecting response executes no
transition regardless of min_approvals, but with min_approvals = 0 the
completion check (approval_count greater-or-equal min_approvals) already
holds on a rejecting response, so the signal flips the request to approved
and executes the transition, after which the view overwrites the status
with rejected: one WorkflowHistory row is appended. -/
theorem C3_min_zero_rejection_executes_transition :
    exceptOk rejectZeroResult = true ∧
    requestStatus dbAfterRejectZero 402 = some "rejected" ∧
    dbAfterRejectZero.history.length = 1 := by
  decide

/-- C5 counterexample: with two initial-tagged states the claim demands
the NoInitialState failure, but get_initial_state silently returns the
first initial state (filter(...).first()): on catalogTwoInit, which has
two initial states, it succeeds with stInitA. -/
theorem C5_two_initial_states_not_an_error :
    ¬ ((exceptOk (get_initial_state catalogTwoInit wdTwoInit) = true) ↔
        numInitialStates catalogTwoInit wdTwoInit = 1) ∧
    (get_initial_state catalogTwoInit wdTwoInit).toOption = some stInitA ∧
    numInitialStates catalogTwoInit wdTwoInit = 2 := by
  decide

/-- C6 counterexample: the default-definition lookup of
get_or_create_workflow_instance filters only on (entity_type, is_active,
is_default) and ignores the tenant: for the tenant-1 entity entCampaign,
whose catalog holds a default campaign definition only for tenant 2, the
claim demands the NoDefaultWorkflow failure (no default exists for
(tenant 1, campaign)), but the call succeeds and attaches the tenant-2
definition. -/
theorem C6_default_definition_ignores_tenant :
    get_default_definition_spec catalogOtherTenant entCampaign.tenant
      entCampaign.entity_type = none ∧
    exceptOk (get_or_create_workflow_instance catalogOtherTenant baseDB
      entCampaign none) = true ∧
    ((dbAfter baseDB (get_or_create_workflow_instance catalogOtherTenant
      baseDB entCampaign none)).instances.find? (fun i => i.object_id = 500)).map
        (fun i => i.workflow) = some wdOtherTenant.id := by
  decide

/-- C7 counterexample: the claim says every execute_transition on an
is_active = false instance fails with InstanceCompleted, but neither
can_transition nor execute_transition ever reads is_active (and no
InstanceCompleted error exists in the code): on the completed instance
instLiveDone resting in the final state LIVE, the catalog transition
LIVE to ARCHIVED executes successfully and appends a history row. -/
theorem C7_completed_instance_still_transitions :
    instLiveDone.is_active = false ∧
    exceptOk execArchiveResult = true ∧
    dbAfterArchive.history.length = 1 ∧
    instanceState dbAfterArchive 301 = some stArchived.id ∧
    entityStatus dbAfterArchive 500 = some "ARCHIVED" := by
  decide

/-- C9: request_approval fires the ApprovalRequest post_save signal inside
objects.create, before required_approvers.set(approvers) runs, so the
signal iterates over an empty approver set: creating a request with two
required approvers produces zero approval_required notifications, against
the claim's one notification per required approver.  The approver set
itself is stored correctly afterwards. -/
theorem C9_approval_request_creation_notifies_nobody :
    exceptOk requestApprovalResult = true ∧
    requestApprovers dbAfterRequest 600 = some [101, 102] ∧
    requestStatus dbAfterRequest 600 = some "pending" ∧
    (dbAfterRequest.notifications.filter
      (fun n => n.notification_type = "approval_required")).length = 0 := by
  decide

/-- C8: for every (instance, transition) pair where the transition's
from_state differs from the instance's current_state, execute_transition
fails with the InvalidTransition reason ('Transition not available from
current state') and, the call being wrapped in transaction.atomic, the
database — instance, history and audit log included — is completely
unchanged. -/
theorem C8_invalid_transition_rolls_back (db : DB) (inst : WorkflowInstance)
    (t : WorkflowTransition) (user : Option User) (comment : String)
    (h : t.from_state.id ≠ inst.current_state.id) :
    runTransition db inst t user comment =
      (db, .error (.cannotTransition .invalidTransition)) := by
  unfold runTransition execute_transition can_transition
  rw [if_pos h]

/-- C8 witness: attempting the PENDING to LIVE transition while the demo
instance sits in DRAFT rolls back with the InvalidTransition reason. -/
theorem C8_invalid_transition_rolls_back_witness :
    runTransition dbDraft instDraft trApprove (some uAlice) "" =
      (dbDraft, .error (.cannotTransition .invalidTransition)) :=
  C8_invalid_transition_rolls_back dbDraft instDraft trApprove (some uAlice)
    "" (by decide)

/-- C7 amended: execute_transition never consults is_active and the code
has no InstanceCompleted error; on an inactive (completed) instance an
attempt fails if and only if the ordinary can_transition checks refuse it
(in particular with the InvalidTransition reason whenever the transition
does not start at the final current state), and when those checks pass the
transition executes. -/
theorem C7_no_instance_completed_check (db : DB) (inst : WorkflowInstance)
    (t : WorkflowTransition) (user : Option User) (comment : String)
    (_hInactive : inst.is_active = false) :
    (can_transition db inst t user = none →
      exceptOk (execute_transition db inst t user comment) = true) ∧
    (∀ e, execute_transition db inst t user comment = .error e ↔
      ∃ d, can_transition db inst t user = some d ∧ e = .cannotTransition d) := by
  constructor
  · intro hc
    unfold execute_transition
    rw [hc]
    rfl
  · intro e
    unfold execute_transition
    cases hc : can_transition db inst t user with
    | none => simp
    | some d => simp [eq_comm]

/-- C7 witness: on the completed demo instance (is_active = false) the
archival transition out of the final state passes can_transition and
therefore executes. -/
theorem C7_no_instance_completed_check_witness :
    exceptOk (execute_transition dbLiveDone instLiveDone trArchive
      (some uAlice) "later") = true :=
  (C7_no_instance_completed_check dbLiveDone instLiveDone trArchive
    (some uAlice) "later" (by decide)).1 (by decide)

/-- C5 amended: get_initial_state fails (always with the NoInitialState
error) if and only if the definition has zero initial-tagged states; with
one or more it succeeds and returns the first initial-tagged state in
catalog (display) order — a two-or-more-initial configuration is silently
resolved, not an error. -/
theorem C5_initial_state_resolution (c : Catalog) (wd : WorkflowDefinition) :
    (get_initial_state c wd = .error (.noInitialState wd.name) ↔
      numInitialStates c wd = 0) ∧
    (∀ s, get_initial_state c wd = .ok s →
      s ∈ c.states ∧ s.workflow = wd.id ∧ s.state_type = "initial") := by
  constructor
  · unfold get_initial_state
    cases hf : c.states.find?
        (fun s => s.workflow = wd.id ∧ s.state_type = "initial") with
    | none =>
      have h0 : numInitialStates c wd = 0 := by
        unfold numInitialStates
        rw [List.length_eq_zero, List.filter_eq_nil_iff]
        intro a ha
        have := List.find?_eq_none.mp hf a ha
        simpa using this
      simp [h0]
    | some s =>
      have hm := List.mem_of_find?_eq_some hf
      have hp := List.find?_some hf
      have hne : numInitialStates c wd ≠ 0 := by
        unfold numInitialStates
        intro hlen
        rw [List.length_eq_zero, List.filter_eq_nil_iff] at hlen
        exact hlen s hm hp
      simp [hne]
  · intro s hs
    unfold get_initial_state at hs
    cases hf : c.states.find?
        (fun x => x.workflow = wd.id ∧ x.state_type = "initial") with
    | none => rw [hf] at hs; cases hs
    | some s' =>
      rw [hf] at hs
      cases hs
      have hm := List.mem_of_find?_eq_some hf
      have hp := List.find?_some hf
      have hp2 := of_decide_eq_true hp
      exact ⟨hm, hp2.1, hp2.2⟩

/-- C5 witness: on the two-initial-state catalog, the returned state
stInitA is one of the definition's initial-tagged states. -/
theorem C5_initial_state_resolution_witness :
    stInitA ∈ catalogTwoInit.states ∧ stInitA.workflow = wdTwoInit.id ∧
      stInitA.state_type = "initial" :=
  (C5_initial_state_resolution catalogTwoInit wdTwoInit).2 stInitA (by decide)

/-- C6 amended: for an entity with no active instance and no
caller-supplied definition, get_or_create_workflow_instance resolves the
default definition by entity type alone — the tenant is not part of the
filter — and fails with NoDefaultWorkflow exactly when no active
default-flagged definition with that entity type exists in the whole
catalog, regardless of tenant. -/
theorem C6_no_default_workflow_iff_no_entity_type_default (c : Catalog)
    (db : DB) (e : Entity)
    (hNo : db.instances.find?
      (fun i => i.entity_type = e.entity_type ∧ i.object_id = e.id ∧
        i.is_active) = none) :
    (get_or_create_workflow_instance c db e none =
        .error (.noDefaultWorkflow e.entity_type) ↔
      get_default_definition c e.entity_type = none) := by
  unfold get_or_create_workflow_instance
  rw [hNo]
  cases hd : get_default_definition c e.entity_type with
  | none => simp
  | some wd =>
    cases hs : get_initial_state c wd with
    | ok s0 => simp [hs]
    | error err =>
      have herr := get_initial_state_error c wd err hs
      subst herr
      simp [hs]

/-- C6 witness: for the tenant-1 campaign entity against a catalog whose
only definition is for media plans, the call fails with NoDefaultWorkflow
because no campaign default exists at all. -/
theorem C6_no_default_workflow_iff_no_entity_type_default_witness :
    get_or_create_workflow_instance catalogTwoInit baseDB entCampaign none =
      .error (.noDefaultWorkflow "campaign") :=
  (C6_no_default_workflow_iff_no_entity_type_default catalogTwoInit baseDB
    entCampaign (by decide)).mpr (by decide)

/-- C4: request_approval is idempotent per (workflow_instance, transition):
when a first call for an approval-requiring transition returns (db1, rid),
an immediately repeated call on db1 returns the same request id rid and
leaves the database unchanged at db1 — the existing pending request is
returned rather than a duplicate created. -/
theorem C4_request_approval_idempotent (c : Catalog) (db : DB)
    (inst : WorkflowInstance) (t : WorkflowTransition) (u : User)
    (approvers groups : List Nat) (mi : Nat) (dd : Option Nat)
    (db1 : DB) (rid : Nat)
    (hReq : t.requires_approval = true)
    (h1 : request_approval c db inst t u approvers groups mi dd = .ok (db1, rid)) :
    request_approval c db1 inst t u approvers groups mi dd = .ok (db1, rid) := by
  unfold request_approval at h1
  rw [if_neg (by simp [hReq])] at h1
  cases hf : db.approvalRequests.find?
      (fun r => r.workflow_instance = inst.id ∧ r.transition = t.id ∧
        r.status = "pending") with
  | some ex =>
    rw [hf] at h1
    cases h1
    unfold request_approval
    rw [if_neg (by simp [hReq]), hf]
  | none =>
    rw [hf] at h1
    simp only [] at h1
    cases h1
    by_cases ha : approvers = [] <;> by_cases hg : groups = [] <;>
      simp [request_approval, hReq, ha, hg, setRequestApprovers,
        setRequestGroups, on_approval_request_created,
        List.find?_cons_of_pos]

/-- C4 witness: the repeated call on the state left by the first demo
request returns the same request id 600 with the database unchanged. -/
theorem C4_request_approval_idempotent_witness :
    request_approval demoCatalog dbAfterRequest instPending trApprove uAlice
      [101, 102] [] 2 none = .ok (dbAfterRequest, 600) :=
  C4_request_approval_idempotent demoCatalog dbPendingOnly instPending
    trApprove uAlice [101, 102] [] 2 none dbAfterRequest 600 (by decide)
    (by decide)

/-- C3 amended: recording a rejecting response on a pending request whose
approved-response count is still below min_approvals (in particular any
request with min_approvals at least 1 and the threshold unreached)
immediately sets the status to rejected and executes no transition, and
every later respond call — approving or not — fails with the
no-longer-pending error; the min_approvals = 0 edge case is excluded
because there the signal's completion check fires even on a rejection and
executes the transition before the view marks the request rejected.  In
particular, on the min_approvals = 2 demo request the order
[reject, approve, approve] ends rejected with zero executed transitions
and [approve, approve] ends approved with exactly one. -/
theorem C3_rejection_terminal :
    (∀ (c : Catalog) (db : DB) (rid : Nat) (u : User) (comment : String)
      (req : ApprovalRequest),
      db.approvalRequests.find? (fun r => r.id = rid) = some req →
      req.status = "pending" →
      (req.required_approvers.contains u.id ∨
        req.required_groups.any (fun g => u.groups.contains g) ∨
        u.is_superuser) →
      db.responses.any
        (fun r => r.approval_request = rid ∧ r.user = u.id) = false →
      approval_count db rid < req.min_approvals →
      ∃ d, respond c db rid u false comment = .ok d ∧
        requestStatus d rid = some "rejected" ∧ d.history = db.history) ∧
    (∀ (c : Catalog) (db : DB) (rid : Nat) (u : User) (ia : Bool)
      (cm : String),
      requestStatus db rid = some "rejected" →
      respond c db rid u ia cm = .error .requestNotPending) ∧
    (exceptOk rejectFirstResult = true ∧
      requestStatus dbAfterReject 400 = some "rejected" ∧
      dbAfterReject.history.length = 0 ∧
      respond demoCatalog dbAfterReject 400 uCara true "" =
        .error .requestNotPending ∧
      respond demoCatalog dbAfterReject 400 uDana true "" =
        .error .requestNotPending) ∧
    (exceptOk approveOnceResult = true ∧
      requestStatus dbAfterOneApprove 400 = some "pending" ∧
      dbAfterOneApprove.history.length = 0 ∧
      exceptOk approveTwiceResult = true ∧
      requestStatus dbAfterTwoApprovals 400 = some "approved" ∧
      dbAfterTwoApprovals.history.length = 1) := by
  refine ⟨?_, ?_, by decide, by decide⟩
  · intro c db rid u comment req hfind hpend hauth hnodup hcount
    have hid : req.id = rid := by simpa using List.find?_some hfind
    have hfull : ∀ d : DB, approval_count d rid = approval_count db rid →
        ¬(is_fully_approved d req ∧ req.status = "pending") := by
      intro d hd hcon
      have h1 := hcon.1
      unfold is_fully_approved at h1
      rw [hid, hd] at h1
      omega
    unfold respond on_approval_response
    rw [hfind]
    dsimp only
    rw [if_neg (by simp [hpend])]
    rw [if_neg (not_not_intro hauth)]
    rw [if_neg (by rw [hnodup]; exact Bool.false_ne_true)]
    rw [hfind]
    dsimp only
    rw [if_neg (hfull _ (approval_count_cons_not_approved db rid
      { id := db.nextId, approval_request := rid, user := u.id,
        is_approved := false, comment := comment } rfl (db.nextId + 1)))]
    rcases hby : req.requested_by with _ | ruid <;> dsimp only <;>
      refine ⟨_, rfl, ?_, rfl⟩ <;>
      · unfold requestStatus updateRequest
        dsimp only
        exact status_after_reject_update db.approvalRequests rid req.id _
          hid hid rfl req hfind
  · intro c db rid u ia cm h
    unfold requestStatus at h
    cases hf : db.approvalRequests.find? (fun r => r.id = rid) with
    | none => rw [hf] at h; cases h
    | some r =>
      rw [hf] at h
      have hr : r.status = "rejected" := by simpa using h
      unfold respond
      rw [hf]
      dsimp only
      rw [if_pos (show r.status ≠ "pending" by rw [hr]; decide)]

/-- C3 witness: Bob's rejection of the pending min_approvals = 2 demo
request lands in rejected with the history untouched, and a later
approval attempt fails as no longer pending. -/
theorem C3_rejection_terminal_witness :
    (∃ d, respond demoCatalog dbTwoApprovals 400 uBob false
        "changes requested" = .ok d ∧
      requestStatus d 400 = some "rejected" ∧
      d.history = dbTwoApprovals.history) ∧
    respond demoCatalog dbAfterReject 400 uCara true "" =
      .error .requestNotPending :=
  ⟨C3_rejection_terminal.1 demoCatalog dbTwoApprovals 400 uBob
      "changes requested" reqTwo (by decide) (by decide) (by decide)
      (by decide) (by decide),
    C3_rejection_terminal.2.1 demoCatalog dbAfterReject 400 uCara true ""
      (by decide)⟩

/-- C10: the BudgetChangeLog display conversion new_value computes
new_value_micros / 1_000_000 with Python float true division, an IEEE-754
binary64 operation, against the claim that the conversion is exact and
never performed in floating point.  At new_value_micros =
(2^53 + 1) * 10^6 no binary64 value — whatever rounding produces — equals
the exact decimal v / 1_000_000 = 2^53 + 1, because that integer needs a
54-bit significand. -/
theorem C10_micros_float_division_inexact :
    ∀ q : ℚ, representableBinary64 q →
      q ≠ micros_to_decimal_exact failingMicros := by
  have hval : micros_to_decimal_exact failingMicros =
      (9007199254740993 : ℚ) := by
    unfold micros_to_decimal_exact failingMicros
    norm_num
  intro q hq heq
  obtain ⟨m, e, hm, hrep⟩ := hq
  rw [hval] at heq
  rw [hrep] at heq
  have hm' : |m| < 9007199254740992 := by norm_num at hm; exact hm
  obtain ⟨n, rfl | rfl⟩ := e.eq_nat_or_neg
  · rw [zpow_natCast] at heq
    have hz : m * 2 ^ n = 9007199254740993 := by exact_mod_cast heq
    rcases n with _ | k
    · simp at hz
      have habs := le_abs_self m
      linarith
    · have heven : (2 : ℤ) ∣ 9007199254740993 :=
        ⟨m * 2 ^ k, by linear_combination - hz + pow_succ (2:ℤ) k * m⟩
      norm_num at heven
  · rw [zpow_neg, zpow_natCast] at heq
    have h2 : ((2 : ℚ) ^ n) ≠ 0 := by positivity
    have heq2 : (m : ℚ) = 9007199254740993 * 2 ^ n := by
      field_simp at heq
      linarith
    have hz : m = 9007199254740993 * 2 ^ n := by exact_mod_cast heq2
    have hpos : (0 : ℤ) < 2 ^ n := pow_pos (by norm_num) n
    have habs := le_abs_self m
    linarith

/-- C10 witness: the binary64 value 2^53 (representable with significand
2^52 and exponent 1) differs from the exact decimal of the failing micros
amount. -/
theorem C10_micros_float_division_inexact_witness :
    representableBinary64 ((9007199254740992 : ℚ)) ∧
    (9007199254740992 : ℚ) ≠ micros_to_decimal_exact failingMicros := by
  have hrep : representableBinary64 ((9007199254740992 : ℚ)) :=
    ⟨2 ^ 52, 1, by norm_num, by norm_num⟩
  exact ⟨hrep, C10_micros_float_division_inexact _ hrep⟩

end Eos
